import Mathlib

/-!
Verification of the PropertyIQ / ATTOM backend core (`src/main.py`).

The pipeline works on parsed JSON payloads, so Python runtime values are
modelled by the inductive type `JVal` below.  Python's numbers are modelled
by `ℚ` (the source only adds, multiplies, divides and truncates values that
are exactly representable), fallible Python operations (attribute errors,
type errors, key errors) are modelled by `Except Unit`, and a function that
Python would let an exception escape from is modelled as returning
`Except.error ()`.
-/

/-- A Python runtime value as produced by parsing provider JSON. -/
inductive JVal : Type where
  | null : JVal
  | bool : Bool → JVal
  | num : ℚ → JVal
  | str : String → JVal
  | arr : List JVal → JVal
  | obj : List (String × JVal) → JVal

/-- Python truthiness: `None`, `False`, `0`, `""`, `[]`, `{}` are falsy. -/
def truthy : JVal → Bool
  | .null => false
  | .bool b => b
  | .num q => q != 0
  | .str s => s != ""
  | .arr l => !l.isEmpty
  | .obj l => !l.isEmpty

/-- Python `receiver.get(key, default)`: dictionary lookup with a default.
Raises (`AttributeError`) when the receiver is not a dict. -/
def dictGet : JVal → String → JVal → Except Unit JVal
  | .obj l, k, d => .ok (((l.find? (fun kv => kv.1 == k)).map Prod.snd).getD d)
  | _, _, _ => .error ()

/-- Python `receiver.keys()`: raises when the receiver is not a dict. -/
def pyKeys : JVal → Except Unit (List String)
  | .obj l => .ok (l.map Prod.fst)
  | _ => .error ()

/-- Python `len(v)`: defined for strings, lists and dicts, raises otherwise. -/
def pyLen : JVal → Except Unit Nat
  | .str s => .ok s.length
  | .arr l => .ok l.length
  | .obj l => .ok l.length
  | _ => .error ()

/-- Lower-casing, Python `s.lower()` (character-list implementation, so that
it evaluates by kernel reduction). -/
def strLower (s : String) : String := ⟨s.data.map Char.toLower⟩

/-- Upper-casing, Python `s.upper()`. -/
def strUpper (s : String) : String := ⟨s.data.map Char.toUpper⟩

/-- Whitespace stripping, Python `s.strip()`. -/
def strTrim (s : String) : String :=
  ⟨(((s.data.dropWhile Char.isWhitespace).reverse).dropWhile Char.isWhitespace).reverse⟩

/-- Split a character list on a separator, Python `s.split(sep)`: the result
always has one more part than there are separator occurrences. -/
def splitCharList (sep : Char) : List Char → List (List Char)
  | [] => [[]]
  | c :: rest =>
      match splitCharList sep rest with
      | h :: t => if c == sep then [] :: h :: t else (c :: h) :: t
      | [] => if c == sep then [[], []] else [[c]]

/-- String split on a single-character separator. -/
def strSplitOnChar (sep : Char) (s : String) : List String :=
  (splitCharList sep s.data).map (fun cs => ⟨cs⟩)

/-- Parse a nonempty all-digit character list as a natural number. -/
def parseNatAux : List Char → Nat → Option Nat
  | [], acc => some acc
  | c :: rest, acc =>
      if c.isDigit then parseNatAux rest (acc * 10 + (c.toNat - 48)) else none

/-- Parse a nonempty all-digit character list; `none` on anything else. -/
def parseNatList : List Char → Option Nat
  | [] => none
  | c :: rest => parseNatAux (c :: rest) 0

/-- Python `int(s)` for a string argument: strip whitespace, optional sign,
strictly decimal digits; `none` models a `ValueError`. -/
def pyParseInt (s : String) : Option ℤ :=
  match (strTrim s).data with
  | '-' :: rest => (parseNatList rest).map (fun n => -(n : ℤ))
  | '+' :: rest => (parseNatList rest).map (fun n => (n : ℤ))
  | l => (parseNatList l).map (fun n => (n : ℤ))

/-- Python `v[0]`: first element of a list or string; raises on a dict whose
keys are strings (a `KeyError` for the key `0`) and on non-subscriptables. -/
def pyIndex0 : JVal → Except Unit JVal
  | .arr (h :: _) => .ok h
  | .str s => if s == "" then .error () else .ok (.str ⟨s.data.take 1⟩)
  | _ => .error ()

/-- Python `v.upper()`: raises unless `v` is a string. -/
def pyUpper : JVal → Except Unit String
  | .str s => .ok (strUpper s)
  | _ => .error ()

/-- Python `v.lower()`: raises unless `v` is a string. -/
def pyLower : JVal → Except Unit String
  | .str s => .ok (strLower s)
  | _ => .error ()

/-- Containment of one character list in another, at any position. -/
def listContains (needle : List Char) : List Char → Bool
  | [] => needle.isEmpty
  | c :: rest => needle.isPrefixOf (c :: rest) || listContains needle rest

/-- Substring containment, Python's `needle in hay` for strings. -/
def strContains (hay needle : String) : Bool :=
  listContains needle.data hay.data

/-- Python `needle in container` for a string needle: substring test on a
string, membership on a list, key membership on a dict; raises otherwise. -/
def pyInStr (needle : String) : JVal → Except Unit Bool
  | .str s => .ok (strContains s needle)
  | .arr l => .ok (l.any (fun v => match v with | .str s => s == needle | _ => false))
  | .obj l => .ok (l.any (fun kv => kv.1 == needle))
  | _ => .error ()

/-- Python `v > c` against a numeric constant: numbers and booleans compare,
anything else (strings, `None`, containers) raises a `TypeError`. -/
def pyGTnum (v : JVal) (c : ℚ) : Except Unit Bool :=
  match v with
  | .num q => .ok (decide (c < q))
  | .bool b => .ok (decide (c < (if b then (1 : ℚ) else 0)))
  | _ => .error ()

/-- Python `str(v)` as used in f-strings.  The exact rendering of numbers and
containers is irrelevant to every property proved below (only truthiness of
the resulting strings matters), so it is kept schematic for containers. -/
def pyStr : JVal → String
  | .null => "None"
  | .bool b => if b then "True" else "False"
  | .num q => toString q
  | .str s => s
  | .arr _ => "[\x2e\x2e\x2e]"
  | .obj _ => "\x7b\x2e\x2e\x2e\x7d"

/-- Python `int(q)` for a float/int argument: truncation toward zero. -/
def pyTrunc (q : ℚ) : ℤ := Int.tdiv q.num (q.den : ℤ)

/-- Decimal-string parsing backing Python `float(s)` (sign, digits, optional
fractional part; scientific notation and specials are not exercised by the
repository's data paths). `none` models a `ValueError`. -/
def parseDecimal (s : String) : Option ℚ :=
  let core : List Char → Option ℚ := fun t =>
    match splitCharList '.' t with
    | [a] => (parseNatList a).map (fun n => (n : ℚ))
    | [a, b] =>
        if a.isEmpty && b.isEmpty then none
        else
          match (if a.isEmpty then some 0 else parseNatList a),
                (if b.isEmpty then some 0 else parseNatList b) with
          | some n, some m => some ((n : ℚ) + ((m : ℚ) / (10 ^ b.length : ℚ)))
          | _, _ => none
    | _ => none
  match (strTrim s).data with
  | '-' :: rest => (core rest).map Neg.neg
  | '+' :: rest => core rest
  | l => core l

/-- `safe_float(value)` from `src/main.py`: `float(value) if value is not None
else default`, with `ValueError`/`TypeError` mapped to the default `0.0`. -/
def safe_float (v : JVal) : ℚ :=
  match v with
  | .null => 0
  | .num q => q
  | .bool b => if b then 1 else 0
  | .str s => (parseDecimal s).getD 0
  | .arr _ => 0
  | .obj _ => 0

/-- `safe_int(value)` from `src/main.py`: `int(value) if value is not None
else default`, with `ValueError`/`TypeError` mapped to the default `0`.
`int` truncates floats toward zero and parses integer strings strictly. -/
def safe_int (v : JVal) : ℤ :=
  match v with
  | .null => 0
  | .num q => pyTrunc q
  | .bool b => if b then 1 else 0
  | .str s => (pyParseInt s).getD 0
  | .arr _ => 0
  | .obj _ => 0

/-- Key-path walk of `safe_get`: follow each segment through nested dicts,
`none` when a segment is absent or a non-terminal value is not a dict. -/
def walkPath : JVal → List String → Option JVal
  | v, [] => some v
  | .obj l, k :: ks =>
      match l.find? (fun kv => kv.1 == k) with
      | some kv => walkPath kv.2 ks
      | none => none
  | _, _ :: _ => none

/-- `safe_get(obj, path, default)` from `src/main.py`: nested dotted-path
lookup; returns the default when the receiver is falsy, when any segment is
missing or traverses a non-dict, or when the final value is `None` or `""`. -/
def safe_get (obj : JVal) (path : String) (default : JVal) : JVal :=
  if truthy obj then
    match walkPath obj (strSplitOnChar '.' path) with
    | some .null => default
    | some (.str s) => if s == "" then default else .str s
    | some v => v
    | none => default
  else default

/-- Lookup in a string-keyed table of rationals, Python `table.get(key, d)`:
unhashable keys (dicts, lists) raise a `TypeError`, any other non-matching
key yields the default. -/
def tableGet (table : List (String × ℚ)) (key : JVal) (d : ℚ) : Except Unit ℚ :=
  match key with
  | .obj _ => .error ()
  | .arr _ => .error ()
  | .str s => .ok (((table.find? (fun kv => kv.1 == s)).map Prod.snd).getD d)
  | _ => .ok d

/-! ### Property-type classifier (`normalize_property_type`, main.py:112) -/

/-- The ordered pattern table of the classifier (`type_mapping`).  Python
iterates a dict in insertion order, so list order encodes priority. -/
def type_mapping : List (String × String) :=
  [("detached", "single_family"),
   ("single family", "single_family"),
   ("single_family", "single_family"),
   ("condominium", "condo"),
   ("condo", "condo"),
   ("townhouse", "townhouse"),
   ("townhome", "townhouse"),
   ("duplex", "multi_family"),
   ("triplex", "multi_family"),
   ("fourplex", "multi_family"),
   ("apartment", "apartment"),
   ("manufactured", "manufactured"),
   ("mobile", "manufactured")]

/-- `normalize_property_type(raw_type)` (main.py:112): empty (falsy) input
returns "unknown"; otherwise the input is lower-cased and stripped, the
first pattern of `type_mapping` contained in it wins, and "single_family"
is the no-match fallback. -/
def normalize_property_type (raw_type : String) : String :=
  if raw_type == "" then "unknown"
  else
    let r := strTrim (strLower raw_type)
    match type_mapping.find? (fun kv => strContains r kv.1) with
    | some kv => kv.2
    | none => "single_family"

/-! ### Feature extractor (`extract_property_features`, main.py:141) -/

/-- Body of the `try` block of `extract_property_features`: any raised
error is replaced by the fallback list at the boundary below. -/
def features_try (building : JVal) : Except Unit (List String) := do
  if truthy building then do
    let construction ← dictGet building "construction" (.obj [])
    let interior ← dictGet building "interior" (.obj [])
    let walltype ← dictGet construction "walltype" .null
    let wallFeatures ←
      if truthy walltype then do
        let wall_type ← pyLower walltype
        if strContains wall_type "brick" then pure ["Brick Exterior"]
        else if strContains wall_type "stone" then pure ["Stone Exterior"]
        else if strContains wall_type "vinyl" then pure ["Vinyl Siding"]
        else pure []
      else pure []
    let fplc ← dictGet interior "fplctype" .null
    let fireFeatures := if truthy fplc then ["Fireplace"] else []
    let rooms ← dictGet building "rooms" (.obj [])
    let bathsfull ← dictGet rooms "bathsfull" (.num 0)
    let manyBaths ← pyGTnum bathsfull 2
    let bathFeatures := if manyBaths then ["Multiple Bathrooms"] else []
    let features := wallFeatures ++ fireFeatures ++ bathFeatures
    if features.isEmpty then pure ["Updated Interior", "Modern Amenities"]
    else pure features
  else pure ["Updated Interior", "Modern Amenities"]

/-- `extract_property_features(building, attom_property)` (main.py:141):
internal failures yield the single fallback tag; the result is capped at 5
entries after the `try`/`except`.  The second argument is never read. -/
def extract_property_features (building _attom_property : JVal) : List String :=
  (match features_try building with
   | .ok fs => fs
   | .error _ => ["Property Features Available"]).take 5

/-! ### Description generator (`generate_property_description`, main.py:180) -/

/-- `generate_property_description` (main.py:180): joins the non-empty
clauses with ". " and a trailing period; a fixed generic sentence when all
clauses are empty.  The body of its `try` cannot raise, so the fallback
sentence of the `except` arm is dead code.  (Python renders `2.0` bathrooms
as "2.0" and comma-groups square footage; that rendering detail is
abstracted by `toString`.) -/
def generate_property_description (bedrooms : ℤ) (bathrooms : ℚ) (square_feet : ℤ)
    (year_built : ℤ) (property_type : String) (features : List String) : String :=
  let part1 : List String :=
    if 0 < bedrooms ∧ 0 < bathrooms then
      ["This " ++ (property_type.replace "_" " ") ++ " features " ++ toString bedrooms ++
        " bedrooms and " ++ toString bathrooms ++ " bathrooms"]
    else []
  let part2 : List String :=
    if 0 < square_feet then
      ["with " ++ toString square_feet ++ " square feet of living space"]
    else []
  let part3 : List String :=
    if 0 < year_built then
      if 2010 ≤ year_built then
        ["Built in " ++ toString year_built ++ ", this modern home offers contemporary living"]
      else if 1990 ≤ year_built then
        ["Built in " ++ toString year_built ++ ", this well-maintained property"]
      else
        ["This classic home from " ++ toString year_built ++ " offers timeless character"]
    else []
  let part4 : List String :=
    if !features.isEmpty then
      ["Notable features include: " ++ String.intercalate ", " (features.take 3)]
    else []
  let desc_parts := part1 ++ part2 ++ part3 ++ part4
  if desc_parts.isEmpty then
    "This property offers comfortable living in a desirable location."
  else
    String.intercalate ". " desc_parts ++ "."

/-! ### Auxiliary estimators (main.py:215-308) -/

/-- State-keyed insurance base rates of `calculate_insurance_estimate`. -/
def state_rates : List (String × ℚ) :=
  [("TX", 8/1000), ("CA", 6/1000), ("FL", 10/1000), ("NY", 5/1000)]

/-- `calculate_insurance_estimate(price, state)` (main.py:215): 2400 for a
non-positive price, otherwise `price × rate` clamped to [1200, 15000]; the
state rate lookup falls back to 0.007, and an unhashable state value (a
`TypeError` inside the `try`) yields 2400. -/
def calculate_insurance_estimate (price : ℚ) (state : JVal) : ℚ :=
  match (do
      if price ≤ 0 then pure (2400 : ℚ)
      else do
        let base_rate ← tableGet state_rates state (7/1000)
        pure (max 1200 (min (price * base_rate) 15000)) : Except Unit ℚ) with
  | .ok v => v
  | .error _ => 2400

/-- `determine_property_status(attom_property)` (main.py:277): the `try`
body always returns "active", and the `except` arm also returns "active". -/
def determine_property_status (_attom_property : JVal) : String := "active"

/-- Body of the `try` block of `calculate_tax_rate` (main.py:289). -/
def tax_rate_try (assessment : JVal) (price : ℚ) : Except Unit ℚ := do
  if truthy assessment = false ∨ price ≤ 0 then pure (15/1000)
  else do
    let tax_data ← dictGet assessment "tax" (.obj [])
    let annual_tax ← if truthy tax_data then dictGet tax_data "taxtot" .null else pure .null
    let isPos ← if truthy annual_tax then pyGTnum annual_tax 0 else pure false
    if truthy annual_tax && isPos then
      pure (safe_float annual_tax / price)
    else do
      let _owner_data ← dictGet assessment "owner" (.obj [])
      pure (15/1000)

/-- `calculate_tax_rate(assessment, price)` (main.py:289): `tax/price` when
an explicit positive annual tax exists, otherwise the 1.5% default; any
internal error yields the same default. -/
def calculate_tax_rate (assessment : JVal) (price : ℚ) : ℚ :=
  match tax_rate_try assessment price with
  | .ok v => v
  | .error _ => 15/1000

/-- `generate_placeholder_images(property_type, price)` (main.py:238):
a pure lookup keyed by (type, price bracket); the `try` body cannot raise,
so the single-fallback-URL arm is dead code. -/
def generate_placeholder_images (property_type : String) (price : ℚ) : List String :=
  let base_url := "https://images.unsplash.com/photo"
  if property_type == "condo" then
    [base_url ++ "-1560448204-603c3d5dd8fd?w=800&h=600&fit=crop&auto=format&q=80",
     base_url ++ "-1586023492-413d21e96b22?w=800&h=600&fit=crop&auto=format&q=80",
     base_url ++ "-1505873242-726de7f43e5d?w=800&h=600&fit=crop&auto=format&q=80",
     base_url ++ "-1556909114-f6e7ad7d3136?w=800&h=600&fit=crop&auto=format&q=80"]
  else if property_type == "townhouse" then
    [base_url ++ "-1570129477-8639e6e85b14?w=800&h=600&fit=crop&auto=format&q=80",
     base_url ++ "-1588580005-f4ac57aa0b96?w=800&h=600&fit=crop&auto=format&q=80",
     base_url ++ "-1505691723-85a4ee2a9b5a?w=800&h=600&fit=crop&auto=format&q=80",
     base_url ++ "-1556909049-5b38b4c37bb5?w=800&h=600&fit=crop&auto=format&q=80"]
  else if 500000 < price then
    [base_url ++ "-1564013799-7e9b35b4847d?w=800&h=600&fit=crop&auto=format&q=80",
     base_url ++ "-1512917774-9fcf808cf876?w=800&h=600&fit=crop&auto=format&q=80",
     base_url ++ "-1556909114-f6e7ad7d3136?w=800&h=600&fit=crop&auto=format&q=80",
     base_url ++ "-1505691938-2da3831ba2e5?w=800&h=600&fit=crop&auto=format&q=80",
     base_url ++ "-1484154218-0bf12d188ca6?w=800&h=600&fit=crop&auto=format&q=80"]
  else
    [base_url ++ "-1580587771525-78b9dba3b914?w=800&h=600&fit=crop&auto=format&q=80",
     base_url ++ "-1586023492-413d21e96b22?w=800&h=600&fit=crop&auto=format&q=80",
     base_url ++ "-1556909114-f6e7ad7d3136?w=800&h=600&fit=crop&auto=format&q=80",
     base_url ++ "-1505691938-2da3831ba2e5?w=800&h=600&fit=crop&auto=format&q=80"]

/-! ### Price estimation model (`estimate_property_price`, main.py:310) -/

/-- Base price per square foot by state and property type. -/
def state_base_prices : List (String × List (String × ℚ)) :=
  [("TX", [("condo", 200), ("single_family", 180), ("townhouse", 190)]),
   ("CA", [("condo", 400), ("single_family", 350), ("townhouse", 380)]),
   ("FL", [("condo", 250), ("single_family", 220), ("townhouse", 240)]),
   ("NY", [("condo", 450), ("single_family", 300), ("townhouse", 350)])]

/-- Per-type defaults for states not in `state_base_prices`. -/
def default_type_prices : List (String × ℚ) :=
  [("condo", 180), ("single_family", 160), ("townhouse", 170)]

/-- City-specific price multipliers, keyed by lower-cased city name. -/
def city_multipliers : List (String × ℚ) :=
  [("austin", 12/10), ("dallas", 115/100), ("houston", 11/10), ("san antonio", 1)]

/-- `state_base_prices.get(state, default)`: the `state` argument is an
arbitrary runtime value inside the normalizer, so an unhashable state (dict
or list) raises a `TypeError` inside the estimator's `try`. -/
def lookup_state_prices (state : JVal) : Except Unit (List (String × ℚ)) :=
  match state with
  | .obj _ => .error ()
  | .arr _ => .error ()
  | .str s => .ok (((state_base_prices.find? (fun kv => kv.1 == s)).map Prod.snd).getD default_type_prices)
  | _ => .ok default_type_prices

/-- The arithmetic of `estimate_property_price` (main.py:322-379) once the
state-price table and the lower-cased city are resolved: base value,
multiplicative adjustments in source order, truncation and clamping. -/
def estimate_core (bedrooms : ℤ) (bathrooms : ℚ) (square_feet : ℤ) (year_built : ℤ)
    (property_type : String) (city_lower : String) (state_prices : List (String × ℚ)) : ℚ :=
  let base_price_per_sqft : ℚ :=
    ((state_prices.find? (fun kv => kv.1 == property_type)).map Prod.snd).getD 160
  let base_value : ℚ :=
    if 0 < square_feet then (square_feet : ℚ) * base_price_per_sqft
    else if 0 < bedrooms then
      ((bedrooms : ℚ) * 400 + bathrooms * 150) * base_price_per_sqft
    else 300000
  let m_age : ℚ :=
    if 0 < year_built then
      let age : ℤ := 2024 - year_built
      if age < 5 then 115/100
      else if age < 15 then 105/100
      else if 50 < age then 85/100
      else 1
    else 1
  let m_size : ℚ :=
    if 3000 < square_feet then 12/10
    else if square_feet < 1000 then 8/10
    else 1
  let m_beds : ℚ := if 4 ≤ bedrooms then 11/10 else 1
  let m_baths : ℚ := if 3 ≤ bathrooms then 105/100 else 1
  let city_mult : ℚ :=
    ((city_multipliers.find? (fun kv => kv.1 == city_lower)).map Prod.snd).getD 1
  let multiplier : ℚ := 1 * m_age * m_size * m_beds * m_baths * city_mult
  let estimated_price : ℚ := ((pyTrunc (base_value * multiplier) : ℤ) : ℚ)
  max 100000 (min estimated_price 2000000)

/-- Body of the `try` block of `estimate_property_price` (main.py:313-379),
with the two fallible steps (state lookup and `city.lower()`) explicit. -/
def estimate_try (bedrooms : ℤ) (bathrooms : ℚ) (square_feet : ℤ) (year_built : ℤ)
    (property_type : String) (city state : JVal) : Except Unit ℚ :=
  match lookup_state_prices state with
  | .error e => .error e
  | .ok state_prices =>
    match pyLower city with
    | .error e => .error e
    | .ok city_lower =>
      .ok (estimate_core bedrooms bathrooms square_feet year_built property_type
        city_lower state_prices)

/-- `estimate_property_price(...)` (main.py:310): the heuristic valuation;
any internal exception yields the fixed fallback 350000. -/
def estimate_property_price (bedrooms : ℤ) (bathrooms : ℚ) (square_feet : ℤ)
    (year_built : ℤ) (property_type : String) (city state : JVal) : ℚ :=
  match estimate_try bedrooms bathrooms square_feet year_built property_type city state with
  | .ok v => v
  | .error _ => 350000

/-! ### Price resolution inside the normalizer (main.py:512-518) -/

/-- The four candidate price fields of the normalizer, in source order:
`market.mktttlvalue`, `market.mktlndvalue`, `assessment.assessed.assdttlvalue`
and `assessment.market.mktttlvalue`, each coerced with `safe_float`.
Raises when a traversed sub-record is not a dict. -/
def price_fields_try (market assessment : JVal) : Except Unit (List ℚ) := do
  let v1 ← dictGet market "mktttlvalue" .null
  let v2 ← dictGet market "mktlndvalue" .null
  let v3 ←
    if truthy assessment then do
      let assessed ← dictGet assessment "assessed" (.obj [])
      dictGet assessed "assdttlvalue" .null
    else pure .null
  let v4 ←
    if truthy assessment then do
      let mkt ← dictGet assessment "market" (.obj [])
      dictGet mkt "mktttlvalue" .null
    else pure .null
  pure [safe_float v1, safe_float v2, safe_float v3, safe_float v4]

/-- `next((p for p in price_fields if p > 0), 0)` (main.py:518): the first
strictly positive candidate, 0 when there is none. -/
def first_positive (l : List ℚ) : ℚ :=
  (l.find? (fun p => decide (0 < p))).getD 0

/-! ### The canonical output record (main.py:585-611) -/

/-- The normalized property record assembled at main.py:585.  Fields that
Python fills with raw values of arbitrary shape are `JVal`; fields that are
always numbers/strings by construction carry their precise type. -/
structure CanonicalProperty : Type where
  id : JVal
  address : JVal
  city : JVal
  state : JVal
  zip_code : JVal
  price : ℚ
  bedrooms : ℤ
  bathrooms : ℚ
  square_feet : ℤ
  year_built : ℤ
  lot_size : ℤ
  property_type : String
  latitude : Option ℚ
  longitude : Option ℚ
  estimated_value : ℚ
  property_status : String
  days_on_market : ℤ
  hoa_fee : ℚ
  property_tax_rate : ℚ
  description : String
  features : List String
  images : List String
  neighborhood : JVal
  school_rating : Option ℚ
  insurance_estimate : ℚ

/-! ### Record normalizer (`normalize_property_with_logging`, main.py:472) -/

/-- The `list(section.keys()) if section else 'MISSING'` logging at
main.py:483-484: raises exactly on a truthy non-dict section. -/
def log_keys (sect : JVal) : Except Unit (List String) :=
  if truthy sect then pyKeys sect else pure []

/-- `sect.get(key, {}) if sect else {}` (main.py:487-490). -/
def sub_section (sect : JVal) (key : String) : Except Unit JVal :=
  if truthy sect then dictGet sect key (.obj []) else pure (.obj [])

/-- The inline property-type classification of the normalizer
(main.py:536-544): CONDOMINIUM in the upper-cased `summary.propertyType`
wins, then SFR in `summary.proptype` (a Python `in` that raises on
non-container values) or SINGLE FAMILY, then TOWNHOUSE, then the
"single_family" default. -/
def inline_property_type (rptUpper : String) (prop_type : JVal) : Except Unit String :=
  if strContains rptUpper "CONDOMINIUM" then pure "condo"
  else do
    let hasSFR ← pyInStr "SFR" prop_type
    if hasSFR || strContains rptUpper "SINGLE FAMILY" then pure "single_family"
    else if strContains rptUpper "TOWNHOUSE" then pure "townhouse"
    else pure "single_family"

/-- Body of the `try` block of `normalize_property_with_logging`
(main.py:474-620), step by step in source order.  Logging statements that
can raise (`building.keys()` / `assessment.keys()` on truthy non-dicts at
main.py:483-484) are kept, since they change which inputs reach the
`except` arm. -/
def normalize_try (attom_property : JVal) : Except Unit CanonicalProperty := do
  let address ← dictGet attom_property "address" (.obj [])
  let building ← dictGet attom_property "building" (.obj [])
  let assessment ← dictGet attom_property "assessment" (.obj [])
  let _ ← log_keys building
  let _ ← log_keys assessment
  let rooms ← sub_section building "rooms"
  let size ← sub_section building "size"
  let _construction ← sub_section building "construction"
  let market ← sub_section assessment "market"
  let property_id := safe_get attom_property "identifier.attomId" (.str "")
  let line1 := safe_get address "line1" (.str "")
  let line2 := safe_get address "line2" (.str "")
  let full_address : JVal :=
    if truthy line2 then .str (pyStr line1 ++ ", " ++ pyStr line2) else line1
  let city := safe_get address "locality" (.str "N/A")
  let state := safe_get address "countrySubd" (.str "N/A")
  let zip_code := safe_get address "postal1" (.str "N/A")
  let price_fields ← price_fields_try market assessment
  let price0 := first_positive price_fields
  let lot ← dictGet attom_property "lot" (.obj [])
  let location ← dictGet attom_property "location" (.obj [])
  let summary ← dictGet attom_property "summary" (.obj [])
  let bedrooms := safe_int (← dictGet rooms "beds" .null)
  let bathrooms := safe_float (← dictGet rooms "bathstotal" .null)
  let square_feet := safe_int (← dictGet size "universalsize" .null)
  let year_built := safe_int (← dictGet summary "yearbuilt" .null)
  let lot_size := safe_int (← dictGet lot "lotSize1" .null)
  let raw_property_type ← dictGet summary "propertyType" (.str "")
  let prop_type ← dictGet summary "proptype" (.str "")
  let rptUpper ← pyUpper raw_property_type
  let property_type ← inline_property_type rptUpper prop_type
  let price : ℚ :=
    if price0 = 0 then
      estimate_property_price bedrooms bathrooms square_feet year_built property_type city state
    else price0
  let latitude := safe_float (← dictGet location "latitude" .null)
  let longitude := safe_float (← dictGet location "longitude" .null)
  let features := extract_property_features building attom_property
  let description := generate_property_description bedrooms bathrooms square_feet
    year_built property_type features
  let images := generate_placeholder_images property_type price
  let insurance_estimate := calculate_insurance_estimate price state
  let tax_rate := calculate_tax_rate assessment price
  pure
    { id := property_id
      address := full_address
      city := city
      state := state
      zip_code := zip_code
      price := price
      bedrooms := bedrooms
      bathrooms := bathrooms
      square_feet := square_feet
      year_built := year_built
      lot_size := lot_size
      property_type := property_type
      latitude := if latitude ≠ 0 then some latitude else none
      longitude := if longitude ≠ 0 then some longitude else none
      estimated_value := price
      property_status := determine_property_status attom_property
      days_on_market := 30
      hoa_fee := 0
      property_tax_rate := tax_rate
      description := description
      features := features
      images := images
      neighborhood := city
      school_rating := none
      insurance_estimate := insurance_estimate }

/-- `normalize_property_with_logging(attom_property)` (main.py:472): the
`try` body above; the `except` arm logs
`list(attom_property.keys()) if attom_property else 'None'` — which itself
raises for a truthy non-dict input — and then returns `None`.  `Except.ok
none` models the Python `None` return; `Except.error ()` models an
exception escaping the function. -/
def normalize_property_with_logging (attom_property : JVal) :
    Except Unit (Option CanonicalProperty) :=
  match normalize_try attom_property with
  | .ok c => .ok (some c)
  | .error _ =>
    if truthy attom_property then
      match attom_property with
      | .obj _ => .ok none
      | _ => .error ()
    else .ok none

/-! ### Fetch orchestrator (`fetch_attom_properties`, main.py:385 and
`search_attom_properties`, main.py:627) -/

/-- Outcome of one HTTP request to the provider, as seen by the pipeline:
a 200 response with a parsed JSON body, a non-success status, or a raised
transport exception (timeout, connection error, unparsable body). -/
inductive HttpResult : Type where
  | ok (body : JVal) : HttpResult
  | bad : HttpResult
  | exn : HttpResult

/-- ZIP code mappings for major cities (`CITY_ZIPS`, main.py:55). -/
def CITY_ZIPS : List (String × List String) :=
  [("austin", ["78701", "78702", "78703", "78704", "78705", "78712", "78721", "78722", "78723", "78724"]),
   ("dallas", ["75201", "75202", "75203", "75204", "75205", "75206", "75207", "75208", "75209", "75210"]),
   ("houston", ["77001", "77002", "77003", "77004", "77005", "77006", "77007", "77008", "77009", "77010"]),
   ("san antonio", ["78201", "78202", "78203", "78204", "78205", "78206", "78207", "78208", "78209", "78210"])]

/-- Body of the `try` block of `fetch_attom_properties` (main.py:387-466):
the expanded-profile request, its response logging (`len(properties)`,
`properties[0]`, `first_prop.keys()` — each of which can raise on
unexpectedly-shaped bodies), and the snapshot fallback for non-success
statuses.  The per-request page-size parameters only shape the outgoing
HTTP request, which is the environment here. -/
def fetch_try (primary fallback : HttpResult) : Except Unit JVal := do
  match primary with
  | .ok body => do
      let properties ← dictGet body "property" (.arr [])
      let _ ← pyLen properties
      if truthy properties then do
        let first_prop ← pyIndex0 properties
        let _ ← pyKeys first_prop
        pure properties
      else pure properties
  | .bad =>
      match fallback with
      | .ok body => do
          let properties ← dictGet body "property" (.arr [])
          let _ ← pyLen properties
          pure properties
      | .bad => pure (.arr [])
      | .exn => .error ()
  | .exn => .error ()

/-- `fetch_attom_properties(zip_code, limit)` (main.py:385): any exception
inside the `try` is caught and the function returns `[]`. -/
def fetch_attom_properties (primary fallback : HttpResult) : JVal :=
  match fetch_try primary fallback with
  | .ok v => v
  | .error _ => .arr []

/-- Partition-key resolution of `search_attom_properties` (main.py:637-642):
lower-case and strip the city, look it up in `CITY_ZIPS`, and fall back to
the single default key "78701" when the lookup yields nothing. -/
def resolve_zip_codes (city : String) : List String :=
  let city_key := strTrim (strLower city)
  let zip_codes := ((CITY_ZIPS.find? (fun kv => kv.1 == city_key)).map Prod.snd).getD []
  if zip_codes.isEmpty then ["78701"] else zip_codes

/-- The partition keys for which fetch tasks are actually created
(main.py:650): only the first three resolved keys are queried. -/
def fetched_zip_codes (city : String) : List String :=
  (resolve_zip_codes city).take 3

/-- The per-partition fetch results gathered by `asyncio.gather`
(main.py:650-651), one per fetched partition key, in order.  The
environment `env` assigns each ZIP its primary and fallback HTTP outcome. -/
def search_results (env : String → HttpResult × HttpResult) (city : String) : List JVal :=
  (fetched_zip_codes city).map (fun z => fetch_attom_properties (env z).1 (env z).2)

/-- Aggregation loop of main.py:654-659: results that are lists are
concatenated in order, anything else (an exception collected as a value)
contributes nothing. -/
def aggregate_results : List JVal → List JVal
  | [] => []
  | r :: rest =>
      (match r with | .arr l => l | _ => []) ++ aggregate_results rest

/-- Python list slicing `l[:limit]` for a possibly negative `limit`. -/
def pySliceTo (l : List JVal) (limit : ℤ) : List JVal :=
  if 0 ≤ limit then l.take limit.toNat
  else l.take (l.length - (-limit).toNat)

/-- Normalization loop of main.py:664-669: normalize each raw record in
order, keeping the records that are non-`None` and have a truthy address;
an exception escaping the normalizer aborts the whole search. -/
def normalize_filter : List JVal → Except Unit (List CanonicalProperty)
  | [] => .ok []
  | p :: rest => do
      let normalized_prop ← normalize_property_with_logging p
      let tail ← normalize_filter rest
      match normalized_prop with
      | some c => if truthy c.address then pure (c :: tail) else pure tail
      | none => pure tail

/-- `search_attom_properties(city, state, limit)` (main.py:627): resolve
partitions, fetch the first three concurrently, aggregate, truncate to
`limit`, normalize and filter.  `Except.error ()` models the `except` arm
re-raising as `HTTPException(500)`; `state` only appears in logging. -/
def search_attom_properties (env : String → HttpResult × HttpResult)
    (city _state : String) (limit : ℤ) : Except Unit (List CanonicalProperty) :=
  normalize_filter (pySliceTo (aggregate_results (search_results env city)) limit)

/-- An environment in which every partition request raises a transport
exception: the 100%-failure scenario. -/
def envAllFail : String → HttpResult × HttpResult := fun _ => (HttpResult.exn, HttpResult.exn)

/-- The spec's data-model assumption on provider payloads: every element of
a fetched record list is a mapping ("RawPropertyRecord — an arbitrarily
shaped nested mapping"). -/
def all_records_mappings (v : JVal) : Bool :=
  match v with
  | .arr l => l.all (fun x => match x with | .obj _ => true | _ => false)
  | _ => true

/-! ### Projections used to state concrete facts about normalizer output -/

/-- Price of a normalizer outcome, when it produced a record. -/
def priceOf : Except Unit (Option CanonicalProperty) → Option ℚ
  | .ok (some c) => some c.price
  | _ => none

/-- Estimated value of a normalizer outcome, when it produced a record. -/
def estimatedValueOf : Except Unit (Option CanonicalProperty) → Option ℚ
  | .ok (some c) => some c.estimated_value
  | _ => none

/-- Bedroom count of a normalizer outcome, when it produced a record. -/
def bedroomsOf : Except Unit (Option CanonicalProperty) → Option ℤ
  | .ok (some c) => some c.bedrooms
  | _ => none

/-- Property type of a normalizer outcome, when it produced a record. -/
def propertyTypeOf : Except Unit (Option CanonicalProperty) → Option String
  | .ok (some c) => some c.property_type
  | _ => none

/-- Whether a normalizer outcome is an actual record (not `None`, not a
raised exception). -/
def returnsRecord : Except Unit (Option CanonicalProperty) → Bool
  | .ok (some _) => true
  | _ => false

/-! ### Concrete raw records used in the claims -/

/-- A raw record whose `summary.propertyType` is a number: `.upper()` on it
raises `AttributeError` inside the normalizer's `try` block. -/
def recBadType : JVal :=
  .obj [("summary", .obj [("propertyType", .num 5)])]

/-- A raw record carrying an authoritative market total value of 350000. -/
def rec350 : JVal :=
  .obj [("assessment", .obj [("market", .obj [("mktttlvalue", .num 350000)])])]

/-- A raw record whose market total value is negative. -/
def recNegMarket : JVal :=
  .obj [("assessment", .obj [("market", .obj [("mktttlvalue", .num (-100))])])]

/-- A raw record with a negative bedroom count. -/
def recNegBeds : JVal :=
  .obj [("building", .obj [("rooms", .obj [("beds", .num (-3))])])]

/-- An Austin, TX raw record with bedrooms=3, bathrooms=2 and no market
value and no square footage. -/
def recAustin : JVal :=
  .obj [("address", .obj [("locality", .str "Austin"), ("countrySubd", .str "TX")]),
        ("building", .obj [("rooms", .obj [("beds", .num 3), ("bathstotal", .num 2)])])]


/-! ### Helper lemmas -/

/-- Inversion for a successful `Except` bind. -/
theorem exceptBindOk {α β : Type} {x : Except Unit α} {f : α → Except Unit β} {b : β}
    (h : x >>= f = Except.ok b) : ∃ a, x = Except.ok a ∧ f a = Except.ok b := by
  cases x with
  | ok a => exact ⟨a, rfl, h⟩
  | error e => exact absurd h (by simp [Bind.bind, Except.bind])

/-- Inversion for a successful `Except` pure. -/
theorem exceptPureOk {α : Type} {a b : α}
    (h : (pure a : Except Unit α) = Except.ok b) : a = b := by
  simpa [pure, Except.pure] using h

/-- The value selected by `first_positive` is never negative. -/
theorem first_positive_nonneg (l : List ℚ) : 0 ≤ first_positive l := by
  unfold first_positive
  cases h : l.find? (fun p => decide (0 < p)) with
  | none => simp
  | some a =>
      have ha := List.find?_some h
      simp only [decide_eq_true_eq] at ha
      simpa using le_of_lt ha

/-- `first_positive` picks the first strictly positive entry, in order. -/
theorem first_positive_of_split (pre post : List ℚ) (v : ℚ)
    (hpre : ∀ x ∈ pre, x ≤ 0) (hv : 0 < v) :
    first_positive (pre ++ v :: post) = v := by
  induction pre with
  | nil => simp [first_positive, List.find?, hv]
  | cons a t ih =>
      have ha : a ≤ 0 := hpre a (by simp)
      have hna : ¬(0 < a) := not_lt.mpr ha
      have ht : ∀ x ∈ t, x ≤ 0 := fun x hx => hpre x (by simp [hx])
      simpa [first_positive, List.find?, hna] using ih ht

/-- When no candidate is strictly positive, `first_positive` yields 0. -/
theorem first_positive_all_nonpos (l : List ℚ) (h : ∀ x ∈ l, x ≤ 0) :
    first_positive l = 0 := by
  unfold first_positive
  cases hf : l.find? (fun p => decide (0 < p)) with
  | none => simp
  | some a =>
      have ha := List.find?_some hf
      simp only [decide_eq_true_eq] at ha
      have hm := List.mem_of_find?_eq_some hf
      exact absurd ha (not_lt.mpr (h a hm))

/-- A successful run of the estimator's `try` body lands in the clamp. -/
theorem estimate_try_ok_bounds {bedrooms : ℤ} {bathrooms : ℚ} {square_feet year_built : ℤ}
    {property_type : String} {city state : JVal} {v : ℚ}
    (h : estimate_try bedrooms bathrooms square_feet year_built property_type city state
      = Except.ok v) : 100000 ≤ v ∧ v ≤ 2000000 := by
  unfold estimate_try at h
  split at h
  · exact absurd h (by simp)
  · split at h
    · exact absurd h (by simp)
    · injection h with h2
      subst h2
      unfold estimate_core
      exact ⟨le_max_left _ _, max_le (by norm_num) (min_le_right _ _)⟩

/-- The estimation model always outputs a price in [100000, 2000000]. -/
theorem estimate_price_bounds (bedrooms : ℤ) (bathrooms : ℚ) (square_feet year_built : ℤ)
    (property_type : String) (city state : JVal) :
    100000 ≤ estimate_property_price bedrooms bathrooms square_feet year_built
      property_type city state ∧
    estimate_property_price bedrooms bathrooms square_feet year_built
      property_type city state ≤ 2000000 := by
  unfold estimate_property_price
  cases htry : estimate_try bedrooms bathrooms square_feet year_built property_type city state with
  | ok v => simpa using estimate_try_ok_bounds htry
  | error e => norm_num

/-- Inversion of a successful normalizer `try` body: the price is strictly
positive (an authoritative candidate was strictly positive, or the clamped
estimator ran), `estimated_value` is the very same value, and the inline
property-type classification can only produce three categories. -/
theorem normalize_try_ok_inv {p : JVal} {c : CanonicalProperty}
    (h : normalize_try p = Except.ok c) :
    (0 < c.price ∧ c.estimated_value = c.price) ∧
    (c.property_type = "condo" ∨ c.property_type = "single_family" ∨
      c.property_type = "townhouse") := by
  unfold normalize_try at h
  obtain ⟨address, -, h⟩ := exceptBindOk h
  obtain ⟨building, -, h⟩ := exceptBindOk h
  obtain ⟨assessment, -, h⟩ := exceptBindOk h
  obtain ⟨k1, -, h⟩ := exceptBindOk h
  obtain ⟨k2, -, h⟩ := exceptBindOk h
  obtain ⟨rooms, -, h⟩ := exceptBindOk h
  obtain ⟨size, -, h⟩ := exceptBindOk h
  obtain ⟨constr, -, h⟩ := exceptBindOk h
  obtain ⟨market, -, h⟩ := exceptBindOk h
  obtain ⟨pf, -, h⟩ := exceptBindOk h
  obtain ⟨lot, -, h⟩ := exceptBindOk h
  obtain ⟨location, -, h⟩ := exceptBindOk h
  obtain ⟨summary, -, h⟩ := exceptBindOk h
  obtain ⟨vbeds, -, h⟩ := exceptBindOk h
  obtain ⟨vbaths, -, h⟩ := exceptBindOk h
  obtain ⟨vsqft, -, h⟩ := exceptBindOk h
  obtain ⟨vyear, -, h⟩ := exceptBindOk h
  obtain ⟨vlot, -, h⟩ := exceptBindOk h
  obtain ⟨rawpt, -, h⟩ := exceptBindOk h
  obtain ⟨proptype, -, h⟩ := exceptBindOk h
  obtain ⟨rptU, -, h⟩ := exceptBindOk h
  obtain ⟨ptype, hpt, h⟩ := exceptBindOk h
  obtain ⟨vlat, -, h⟩ := exceptBindOk h
  obtain ⟨vlon, -, h⟩ := exceptBindOk h
  have hc := exceptPureOk h
  subst hc
  refine ⟨⟨?_, rfl⟩, ?_⟩
  · dsimp only
    split
    · exact lt_of_lt_of_le (by norm_num) (estimate_price_bounds _ _ _ _ _ _ _).1
    · next hne => exact lt_of_le_of_ne (first_positive_nonneg _) (Ne.symm hne)
  · dsimp only
    unfold inline_property_type at hpt
    split at hpt
    · left
      exact (exceptPureOk hpt).symm
    · obtain ⟨hasSFR, -, hpt⟩ := exceptBindOk hpt
      split at hpt
      · right; left
        exact (exceptPureOk hpt).symm
      · split at hpt
        · right; right
          exact (exceptPureOk hpt).symm
        · right; left
          exact (exceptPureOk hpt).symm

/-- On any mapping input the normalizer never lets an exception escape. -/
theorem normalize_obj_ok (fields : List (String × JVal)) :
    ∃ r, normalize_property_with_logging (.obj fields) = Except.ok r := by
  unfold normalize_property_with_logging
  cases h : normalize_try (.obj fields) with
  | ok c => exact ⟨some c, rfl⟩
  | error e =>
      refine ⟨none, ?_⟩
      split
      · simp_all
      · split <;> rfl

/-- The aggregated raw-record count is the sum over all partition results
of the successful partitions' record counts (non-list results count 0). -/
theorem aggregate_results_length (results : List JVal) :
    (aggregate_results results).length =
      (results.map (fun r => match r with | JVal.arr l => l.length | _ => 0)).sum := by
  induction results with
  | nil => rfl
  | cons r rest ih => cases r <;> simp [aggregate_results, ih]

/-- Every aggregated record comes from some list-valued partition result. -/
theorem mem_aggregate_results {p : JVal} {results : List JVal}
    (hp : p ∈ aggregate_results results) :
    ∃ l, JVal.arr l ∈ results ∧ p ∈ l := by
  induction results with
  | nil => cases hp
  | cons r rest ih =>
      unfold aggregate_results at hp
      rcases List.mem_append.mp hp with h1 | h2
      · cases r <;> simp only [List.not_mem_nil] at h1
        case arr l => exact ⟨l, by simp, h1⟩
      · obtain ⟨l, hl, hpl⟩ := ih h2
        exact ⟨l, by simp [hl], hpl⟩

/-- Truncation keeps only records that were aggregated. -/
theorem mem_pySliceTo {p : JVal} {l : List JVal} {limit : ℤ}
    (hp : p ∈ pySliceTo l limit) : p ∈ l := by
  unfold pySliceTo at hp
  split at hp <;> exact List.take_subset _ _ hp

/-- The normalization loop of the search endpoint cannot fail when every
raw record is a mapping. -/
theorem normalize_filter_ok (l : List JVal) (hl : ∀ p ∈ l, ∃ fs, p = JVal.obj fs) :
    ∃ out, normalize_filter l = Except.ok out := by
  induction l with
  | nil => exact ⟨[], rfl⟩
  | cons p rest ih =>
      obtain ⟨fs, hfs⟩ := hl p (by simp)
      subst hfs
      obtain ⟨r, hr⟩ := normalize_obj_ok fs
      obtain ⟨out, hout⟩ := ih (fun q hq => hl q (by simp [hq]))
      cases r with
      | none =>
          exact ⟨out, by simp [normalize_filter, hr, hout, Bind.bind, Except.bind, pure, Except.pure]⟩
      | some c =>
          by_cases hb : truthy c.address = true
          · exact ⟨c :: out,
              by simp [normalize_filter, hr, hout, Bind.bind, Except.bind, hb, pure, Except.pure]⟩
          · exact ⟨out,
              by simp [normalize_filter, hr, hout, Bind.bind, Except.bind, hb, pure, Except.pure]⟩

/-- Under the raw-records-are-mappings payload assumption, every record
reaching the normalization loop of a search is a mapping. -/
theorem search_raw_records_objs {env : String → HttpResult × HttpResult} {city : String}
    (hwf : ∀ z, all_records_mappings (fetch_attom_properties (env z).1 (env z).2) = true) :
    ∀ p ∈ aggregate_results (search_results env city), ∃ fs, p = JVal.obj fs := by
  intro p hp
  obtain ⟨l, hl, hpl⟩ := mem_aggregate_results hp
  obtain ⟨z, hz, hfz⟩ := List.mem_map.mp hl
  have hwfz := hwf z
  rw [hfz] at hwfz
  unfold all_records_mappings at hwfz
  have hp2 := (List.all_eq_true.mp hwfz) p hpl
  cases p with
  | obj fs => exact ⟨fs, rfl⟩
  | null => simp at hp2
  | bool b => simp at hp2
  | num q => simp at hp2
  | str s => simp at hp2
  | arr l => simp at hp2

/-- When every fetched partition yields no records, the search aggregates
nothing and returns the empty list without raising. -/
theorem search_all_empty (env : String → HttpResult × HttpResult) (city state : String)
    (limit : ℤ)
    (hfail : ∀ z, fetch_attom_properties (env z).1 (env z).2 = JVal.arr []) :
    search_attom_properties env city state limit = Except.ok [] := by
  have hagg : ∀ zs : List String,
      aggregate_results (zs.map (fun z => fetch_attom_properties (env z).1 (env z).2)) = [] := by
    intro zs
    induction zs with
    | nil => rfl
    | cons z rest ih => simp [aggregate_results, hfail z, ih]
  unfold search_attom_properties search_results
  rw [hagg]
  have hslice : pySliceTo [] limit = [] := by
    unfold pySliceTo
    split <;> simp
  rw [hslice]
  rfl

/-- A normalizer run that returned an actual record came from a successful
`try` body. -/
theorem normalize_ok_some {p : JVal} {c : CanonicalProperty}
    (h : normalize_property_with_logging p = Except.ok (some c)) :
    normalize_try p = Except.ok c := by
  unfold normalize_property_with_logging at h
  cases htry : normalize_try p with
  | ok c2 =>
      rw [htry] at h
      injection h with h2
      injection h2 with h3
      rw [h3]
  | error e =>
      rw [htry] at h
      exfalso
      split at h
      · simp_all
      · split at h
        · split at h <;> simp_all
        · simp_all

/-! ### Claims -/

/-- C1 (counterexample): on the raw record `{"summary": {"propertyType": 5}}`
the normalizer catches an internal `AttributeError` and returns `None` — an
absent result, not a degraded fallback record — contradicting the claim that
an uncaught exception is converted into a record with defaulted fields. -/
theorem C1_counterexample :
    normalize_property_with_logging recBadType = Except.ok none ∧
    returnsRecord (normalize_property_with_logging recBadType) = false :=
  ⟨by rfl, by rfl⟩

/-- C1 (amended): the record normalizer is total on mapping inputs — it never
raises — but an uncaught exception inside its `try` body is converted into an
absent result (Python `None`, dropped by the caller), not into a degraded
fallback record; a non-raising input such as the empty mapping does produce a
fully populated record. -/
theorem C1_normalizer_amended :
    (∀ fields : List (String × JVal),
      ∃ r, normalize_property_with_logging (JVal.obj fields) = Except.ok r) ∧
    normalize_property_with_logging recBadType = Except.ok none ∧
    returnsRecord (normalize_property_with_logging (JVal.obj [])) = true :=
  ⟨normalize_obj_ok, by rfl, by with_unfolding_all rfl⟩

/-- C4 (counterexample): the classifier maps the empty string to "unknown",
not to "single_family" as claimed. -/
theorem C4_counterexample :
    normalize_property_type "" = "unknown" ∧ "unknown" ≠ "single_family" :=
  ⟨by rfl, by decide⟩

/-- C4 (amended): the property-type classifier is a total pure function that
lower-cases (and strips) its input, tests substring containment against the
ordered pattern table with first match winning, and always lands in the fixed
category set; on no match it returns "single_family", but on empty input it
returns "unknown" (not "single_family"); classifying "Condominium Unit"
yields "condo". -/
theorem C4_classifier_amended :
    (∀ s : String, normalize_property_type s ∈
      ["single_family", "condo", "townhouse", "multi_family", "apartment",
        "manufactured", "unknown"]) ∧
    normalize_property_type "Condominium Unit" = "condo" ∧
    normalize_property_type "" = "unknown" := by
  refine ⟨?_, by with_unfolding_all rfl, by rfl⟩
  intro s
  unfold normalize_property_type
  split
  · simp
  · cases hf : type_mapping.find? (fun kv => strContains (strTrim (strLower s)) kv.1) with
    | none => simp [hf]
    | some kv =>
        have hmem := List.mem_of_find?_eq_some hf
        have hval : ∀ kv2 ∈ type_mapping, kv2.2 ∈
            ["single_family", "condo", "townhouse", "multi_family", "apartment",
              "manufactured", "unknown"] := by decide
        simpa [hf] using hval kv hmem

/-- C5: for every combination of inputs the estimation model's output lies in
the closed interval [100000, 2000000] (also on the internal-failure fallback
path, whose constant 350000 is inside the interval), and as a pure function
it is deterministic: the same inputs always give the same output. -/
theorem C5_estimator_bounds_deterministic :
    ∀ (bedrooms : ℤ) (bathrooms : ℚ) (square_feet year_built : ℤ)
      (property_type : String) (city state : JVal),
      (100000 ≤ estimate_property_price bedrooms bathrooms square_feet year_built
          property_type city state ∧
        estimate_property_price bedrooms bathrooms square_feet year_built
          property_type city state ≤ 2000000) ∧
      estimate_property_price bedrooms bathrooms square_feet year_built
          property_type city state =
        estimate_property_price bedrooms bathrooms square_feet year_built
          property_type city state :=
  fun bedrooms bathrooms square_feet year_built property_type city state =>
    ⟨estimate_price_bounds bedrooms bathrooms square_feet year_built property_type city state,
      rfl⟩

/-- C6: an Austin, TX record with bedrooms=3, bathrooms=2, no square footage
and no market value is priced by the estimation model: the synthesized
square footage is 3×400+2×150 = 1500, the TX single-family rate is 180, the
sub-1000-sqft discount 0.8 and Austin's city multiplier 1.2 apply, and the
clamped result 259200 is the normalized price. -/
theorem C6_austin_scenario :
    priceOf (normalize_property_with_logging recAustin) =
      some (estimate_property_price 3 2 0 0 "single_family"
        (JVal.str "Austin") (JVal.str "TX")) ∧
    estimate_property_price 3 2 0 0 "single_family" (JVal.str "Austin") (JVal.str "TX") =
      max 100000 (min ((((3 : ℚ) * 400 + 2 * 150) * 180) * ((8/10) * (12/10))) 2000000) ∧
    ((3 : ℚ) * 400 + 2 * 150) = 1500 ∧
    estimate_property_price 3 2 0 0 "single_family" (JVal.str "Austin") (JVal.str "TX") =
      259200 :=
  ⟨by with_unfolding_all rfl, by with_unfolding_all rfl, by norm_num,
    by with_unfolding_all rfl⟩

/-- C8 (counterexample): the query for "Austin" resolves ten partition keys,
but fetches are issued only for the first three of them, contradicting "one
concurrent fetch per resolved partition key". -/
theorem C8_counterexample :
    (resolve_zip_codes "Austin").length = 10 ∧
    (fetched_zip_codes "Austin").length = 3 ∧
    (fetched_zip_codes "Austin").length ≠ (resolve_zip_codes "Austin").length :=
  ⟨by with_unfolding_all rfl, by with_unfolding_all rfl, by with_unfolding_all decide⟩

/-- C8 (amended): the fetch orchestrator resolves the lower-cased (and
stripped) city to its full ordered partition-key set via the ZIP registry,
falling back to the single default key "78701" when the city is unmapped,
but issues one concurrent fetch only for each of the FIRST THREE resolved
keys (`zip_codes[:3]`), not for every resolved key. -/
theorem C8_fanout_amended :
    (∀ city : String, fetched_zip_codes city = (resolve_zip_codes city).take 3) ∧
    (∀ (env : String → HttpResult × HttpResult) (city : String),
      (search_results env city).length = min 3 (resolve_zip_codes city).length) ∧
    resolve_zip_codes "Austin" =
      ["78701", "78702", "78703", "78704", "78705", "78712", "78721", "78722",
        "78723", "78724"] ∧
    resolve_zip_codes "Springfield" = ["78701"] := by
  refine ⟨fun city => rfl, ?_, by with_unfolding_all rfl, by with_unfolding_all rfl⟩
  intro env city
  simp [search_results, fetched_zip_codes, List.length_take]

/-- C2: the city search never raises past its own boundary — for every
(city, state, limit) input, under the spec's data-model assumption that
raw property records are mappings, it returns a list of CanonicalProperty;
and when no partition yields any record it returns the empty list rather
than an exception. -/
theorem C2_search_total :
    ∀ (env : String → HttpResult × HttpResult) (city state : String) (limit : ℤ),
      ((∀ z, all_records_mappings (fetch_attom_properties (env z).1 (env z).2) = true) →
        ∃ out, search_attom_properties env city state limit = Except.ok out) ∧
      ((∀ z, fetch_attom_properties (env z).1 (env z).2 = JVal.arr []) →
        search_attom_properties env city state limit = Except.ok []) := by
  intro env city state limit
  constructor
  · intro hwf
    unfold search_attom_properties
    apply normalize_filter_ok
    intro p hp
    exact search_raw_records_objs hwf p (mem_pySliceTo hp)
  · intro hfail
    exact search_all_empty env city state limit hfail

/-- C2 (witness): with every partition raising a transport exception, the
search returns the empty list. -/
theorem C2_search_total_witness :
    search_attom_properties envAllFail "austin" "TX" 20 = Except.ok [] :=
  (C2_search_total envAllFail "austin" "TX" 20).2 (fun _ => rfl)

/-- C3 (counterexample): the candidate price fields are not "each coerced to
a non-negative number" — for a record whose `assessment.market.mktttlvalue`
is -100, the coerced candidate list is [-100, 0, 0, -100], whose first entry
is negative. -/
theorem C3_counterexample :
    price_fields_try (JVal.obj [("mktttlvalue", JVal.num (-100))])
        (JVal.obj [("market", JVal.obj [("mktttlvalue", JVal.num (-100))])]) =
      Except.ok [-100, 0, 0, -100] ∧
    ¬((0 : ℚ) ≤ -100) :=
  ⟨by with_unfolding_all rfl, by norm_num⟩

/-- C3 (amended): price resolution selects the first strictly positive value
in fixed source-priority order among the four coerced candidates (the
coercion passes values through, so candidates may be negative, but negative
candidates are never selected); when no candidate is strictly positive the
selector yields 0 and the estimation model is invoked instead; a record with
`market.mktttlvalue = 350000` resolves to exactly 350000. -/
theorem C3_price_resolution_amended :
    (∀ (pre post : List ℚ) (v : ℚ), (∀ x ∈ pre, x ≤ 0) → 0 < v →
      first_positive (pre ++ v :: post) = v) ∧
    (∀ l : List ℚ, (∀ x ∈ l, x ≤ 0) → first_positive l = 0) ∧
    priceOf (normalize_property_with_logging rec350) = some 350000 ∧
    priceOf (normalize_property_with_logging (JVal.obj [])) =
      some (estimate_property_price 0 0 0 0 "single_family"
        (JVal.str "N/A") (JVal.str "N/A")) :=
  ⟨first_positive_of_split, first_positive_all_nonpos,
    by with_unfolding_all rfl, by with_unfolding_all rfl⟩

/-- C3 (witness): the selection rule evaluated on concrete candidate lists:
the first strictly positive entry wins past non-positive ones, and an
all-non-positive list selects nothing. -/
theorem C3_price_resolution_amended_witness :
    first_positive [0, -5, 7] = 7 ∧ first_positive [-1, 0] = 0 := by
  constructor
  · exact C3_price_resolution_amended.1 [0, -5] [] 7
      (by intro x hx; fin_cases hx <;> norm_num) (by norm_num)
  · exact C3_price_resolution_amended.2.1 [-1, 0]
      (by intro x hx; fin_cases hx <;> norm_num)

/-- C7: partial-failure-tolerant fan-out — the aggregated raw count is the
sum of the successful partitions' record counts (non-list results count
zero), a partition whose request fails (exception, or non-success status on
both endpoints) contributes the empty list, and a 100%-failure case yields
an empty, non-erroring result. -/
theorem C7_partial_failure_tolerant :
    (∀ results : List JVal,
      (aggregate_results results).length =
        (results.map (fun r => match r with | JVal.arr l => l.length | _ => 0)).sum) ∧
    (∀ fb, fetch_attom_properties HttpResult.exn fb = JVal.arr []) ∧
    fetch_attom_properties HttpResult.bad HttpResult.bad = JVal.arr [] ∧
    fetch_attom_properties HttpResult.bad HttpResult.exn = JVal.arr [] ∧
    (∀ (env : String → HttpResult × HttpResult) (city state : String) (limit : ℤ),
      (∀ z, fetch_attom_properties (env z).1 (env z).2 = JVal.arr []) →
      search_attom_properties env city state limit = Except.ok []) :=
  ⟨aggregate_results_length, fun _ => rfl, rfl, rfl, search_all_empty⟩

/-- C7 (witness): two successful partitions with two and one records plus a
failed one aggregate to three records, and an all-failing environment makes
the search return the empty list. -/
theorem C7_partial_failure_tolerant_witness :
    (aggregate_results
      [JVal.arr [JVal.obj [], JVal.obj []], JVal.str "error", JVal.arr [JVal.obj []]]).length
      = 3 ∧
    search_attom_properties envAllFail "houston" "TX" 10 = Except.ok [] := by
  constructor
  · exact (C7_partial_failure_tolerant.1
      [JVal.arr [JVal.obj [], JVal.obj []], JVal.str "error", JVal.arr [JVal.obj []]]).trans
      (by rfl)
  · exact C7_partial_failure_tolerant.2.2.2.2 envAllFail "houston" "TX" 10 (fun _ => rfl)

/-- C9 (counterexample): the normalized record is not sign-invariant in its
structural counts — a raw record with `building.rooms.beds = -3` normalizes
to a record with bedrooms = -3. -/
theorem C9_counterexample :
    bedroomsOf (normalize_property_with_logging recNegBeds) = some (-3) ∧
    ¬((0 : ℤ) ≤ -3) :=
  ⟨by with_unfolding_all rfl, by norm_num⟩

/-- C9 (amended): for every raw record whose normalization produces a
record, price and estimated_value are non-negative (the price is in fact
strictly positive) and identical to each other; but the structural fields
(bedrooms, bathrooms, square_feet, lot_size) merely pass through numeric
coercion and can be negative when the raw fields are negative. -/
theorem C9_price_invariants_amended :
    ∀ (p : JVal) (pr ev : ℚ),
      priceOf (normalize_property_with_logging p) = some pr →
      estimatedValueOf (normalize_property_with_logging p) = some ev →
      0 ≤ pr ∧ ev = pr := by
  intro p pr ev h1 h2
  unfold priceOf at h1
  split at h1
  case h_1 x c heq =>
    injection h1 with h1x
    subst h1x
    unfold estimatedValueOf at h2
    rw [heq] at h2
    simp only [Option.some.injEq] at h2
    have hinv := (normalize_try_ok_inv (normalize_ok_some heq)).1
    exact ⟨le_of_lt hinv.1, by rw [← h2, hinv.2]⟩
  case h_2 => exact absurd h1 (by simp)

/-- C9 (witness): the empty mapping normalizes to price 240000 =
estimated_value, and the theorem applies to it. -/
theorem C9_price_invariants_amended_witness :
    priceOf (normalize_property_with_logging (JVal.obj [])) = some 240000 ∧
    estimatedValueOf (normalize_property_with_logging (JVal.obj [])) = some 240000 ∧
    (0 ≤ (240000 : ℚ) ∧ (240000 : ℚ) = 240000) :=
  ⟨by with_unfolding_all rfl, by with_unfolding_all rfl,
    C9_price_invariants_amended (JVal.obj []) 240000 240000
      (by with_unfolding_all rfl) (by with_unfolding_all rfl)⟩

/-- C10: the normalizer's inline property-type classification (which
bypasses `normalize_property_type`) can only produce "condo",
"single_family" or "townhouse": every raw record that normalizes to a
record has its property_type in this three-element set, so multi_family,
apartment, manufactured and unknown are unreachable through normalization. -/
theorem C10_property_type_closed_set :
    ∀ (p : JVal) (pt : String),
      propertyTypeOf (normalize_property_with_logging p) = some pt →
      pt = "condo" ∨ pt = "single_family" ∨ pt = "townhouse" := by
  intro p pt h
  unfold propertyTypeOf at h
  split at h
  case h_1 x c heq =>
    injection h with hx
    subst hx
    exact (normalize_try_ok_inv (normalize_ok_some heq)).2
  case h_2 => exact absurd h (by simp)

/-- C10 (witness): the empty mapping normalizes with property type
"single_family", which the theorem places in the three-element set. -/
theorem C10_property_type_closed_set_witness :
    propertyTypeOf (normalize_property_with_logging (JVal.obj [])) = some "single_family" ∧
    ("single_family" = "condo" ∨ "single_family" = "single_family" ∨
      "single_family" = "townhouse") :=
  ⟨by with_unfolding_all rfl,
    C10_property_type_closed_set (JVal.obj []) "single_family" (by with_unfolding_all rfl)⟩
